import Mathlib

/-
Verification of the SshWrapper library: a shallow embedding of
`ssh_wrapper/connection.py`, `ssh_wrapper/Ssh/ssh.py`,
`ssh_wrapper/Ssh/channel.py` and `ssh_wrapper/Sftp/sftp.py`.

The external protocol engine (paramiko) is modelled as an explicit
environment: each definition mirrors one Python function of the
repository, with exceptions rendered as `Except` and wall-clock time as
an explicit counter advanced by the `time.sleep` calls of the source.
-/

namespace SshWrapper

/-- Mirror of `ServerData` (`ssh_wrapper/data/server_data.py`): immutable
descriptor of the target host. `connection_timeout` defaults to 300 s. -/
structure ServerData where
  ip : String
  username : String
  password : Option String := none
  custom_name : String := ""
  connection_timeout : Nat := 300
deriving DecidableEq

/-- Mirror of `CommandOutput` (`ssh_wrapper/data/command_output.py`). -/
structure CommandOutput where
  stdout : String
  stderr : String
  exit_code : Int
deriving DecidableEq

/-- Model of the Python `str.strip()` method: drop whitespace from both ends. -/
def pyStrip (s : String) : String :=
  ⟨((s.data.dropWhile Char.isWhitespace).reverse.dropWhile Char.isWhitespace).reverse⟩

/-- Outcome of one `self.client.connect(...)` attempt inside
`Connection.create`. The four failure classes are exactly the four
`except` arms of `connection.py`; `unclassified` stands for any other
exception, which the source does not catch. -/
inductive AttemptResult where
  | success : AttemptResult
  | authFail : AttemptResult
  | sshErr : AttemptResult
  | connErr : AttemptResult
  | osErr (winTimeout : Bool) : AttemptResult
  | unclassified : AttemptResult
deriving DecidableEq

/-- The failure classes caught and retried by `Connection.create`. -/
def AttemptResult.isTransient : AttemptResult → Bool
  | .authFail => true
  | .sshErr => true
  | .connErr => true
  | .osErr _ => true
  | _ => false

/-- An exception escaping a modelled Python function. -/
inductive PyErr where
  | sshException (msg : String)
  | sftpException (msg : String)
  | fileNotFoundError (msg : String)
  | attributeError
  | unhandled
deriving DecidableEq

/-- State of `Connection` (`ssh_wrapper/connection.py`): the private
`__connected` flag. The paramiko client handle itself lives in the
environment. -/
structure Connection where
  connected : Bool
deriving DecidableEq

/-- The `while (time.time() - start_time) < self.server.connection_timeout
and not self.__connected` loop of `Connection.create`.  `remaining` is the
seconds left before the time budget runs out — each failed attempt costs
the 1-second `time.sleep(1)` of `_handle_error` — and `k` numbers the
attempts so the environment `attempts` can drive each one. -/
def Connection.createLoop (attempts : Nat → AttemptResult) :
    Nat → Nat → Except PyErr Connection
  | 0, _ => .ok { connected := false }
  | remaining + 1, k =>
    match attempts k with
    | .success => .ok { connected := true }
    | .authFail => Connection.createLoop attempts remaining (k + 1)
    | .sshErr => Connection.createLoop attempts remaining (k + 1)
    | .connErr => Connection.createLoop attempts remaining (k + 1)
    | .osErr _ => Connection.createLoop attempts remaining (k + 1)
    | .unclassified => .error .unhandled

/-- Mirror of `Connection.__init__`: the private `__connected` flag
starts out `False`. -/
def Connection.init : Connection :=
  { connected := false }

/-- Mirror of `Connection.create`: retry authentication until the session
is live or `connection_timeout` seconds have elapsed; classified failures
are logged and absorbed, anything else propagates.  The loop guard also
reads `not self.__connected`, so a connection that is already live is
left untouched. -/
def Connection.create (attempts : Nat → AttemptResult) (server : ServerData)
    (c : Connection) : Except PyErr Connection :=
  if c.connected then .ok c
  else Connection.createLoop attempts server.connection_timeout 0

/-- Mirror of `Connection.connection_check`: pure read of the flag. -/
def Connection.connection_check (c : Connection) : Bool :=
  c.connected

/-- Mirror of `Connection.delete`: close and clear the flag when live,
no-op otherwise. -/
def Connection.delete (c : Connection) : Connection :=
  if c.connected then { connected := false } else c

theorem createLoop_all_transient (attempts : Nat → AttemptResult)
    (h : ∀ j, (attempts j).isTransient = true) :
    ∀ remaining k, Connection.createLoop attempts remaining k =
      Except.ok { connected := false } := by
  intro remaining
  induction remaining with
  | zero => intro k; rfl
  | succ r ih =>
    intro k
    have hk := h k
    cases hA : attempts k with
    | success => rw [hA] at hk; simp [AttemptResult.isTransient] at hk
    | authFail => simp [Connection.createLoop, hA, ih]
    | sshErr => simp [Connection.createLoop, hA, ih]
    | connErr => simp [Connection.createLoop, hA, ih]
    | osErr w => simp [Connection.createLoop, hA, ih]
    | unclassified => rw [hA] at hk; simp [AttemptResult.isTransient] at hk

/-- C1: if every authentication attempt inside `Connection.create` fails
with one of the classified transient errors, `create` returns without
raising, the connection is not established, and `connection_check` on the
resulting state reports `false`. -/
theorem c1_create_transient_no_raise (attempts : Nat → AttemptResult)
    (server : ServerData)
    (h : ∀ j, (attempts j).isTransient = true) :
    Connection.create attempts server Connection.init =
      Except.ok { connected := false } ∧
    Connection.connection_check { connected := false } = false := by
  refine ⟨?_, rfl⟩
  unfold Connection.create Connection.init
  simpa using createLoop_all_transient attempts h server.connection_timeout 0

/-- Witness for C1 at a concrete server whose every attempt raises
`paramiko.AuthenticationException`. -/
theorem c1_create_transient_no_raise_witness :
    Connection.create (fun _ => AttemptResult.authFail)
        { ip := "10.0.0.5", username := "root", password := some "pw",
          custom_name := "srv", connection_timeout := 3 } Connection.init =
      Except.ok { connected := false } ∧
    Connection.connection_check { connected := false } = false :=
  c1_create_transient_no_raise (fun _ => AttemptResult.authFail)
    { ip := "10.0.0.5", username := "root", password := some "pw",
      custom_name := "srv", connection_timeout := 3 }
    (fun _ => rfl)

/-- Response of the environment to `client.exec_command(command)`: the raw
bytes of the fully drained stdout and stderr streams and the remote exit
status exposed by `stdout.channel.recv_exit_status()`. -/
structure ExecResp where
  stdoutRaw : List Nat
  stderrRaw : List Nat
  exitStatus : Int
deriving DecidableEq

/-- Environment of `Ssh.exec_command`: what the paramiko client returns
for each command, and the `bytes.decode(encoding)` function. -/
structure SshEnv where
  exec : String → ExecResp
  decode : String → List Nat → String

/-- Mirror of `Ssh.exec_command` (`ssh_wrapper/Ssh/ssh.py`): the
`connected_ssh_client_only` decorator raises when the owned `Connection`
is not live; otherwise the command is executed, both streams are drained,
decoded with `encoding` and stripped, and the exit status captured. -/
def Ssh.exec_command (conn : Connection) (env : SshEnv) (command : String)
    (encoding : String) : Except PyErr CommandOutput :=
  if conn.connection_check = false then
    .error (.sshException "Connection is not created")
  else
    let resp := env.exec command
    .ok { stdout := pyStrip (env.decode encoding resp.stdoutRaw),
          stderr := pyStrip (env.decode encoding resp.stderrRaw),
          exit_code := resp.exitStatus }

/-- C4: on a live connection `Ssh.exec_command` returns a `CommandOutput`
holding the drained stdout and stderr, decoded with the given encoding
and stripped of surrounding whitespace, together with the numeric exit
status; in particular a command whose remote exit status is 7 yields
`exit_code = 7`. -/
theorem c4_exec_command_output (conn : Connection) (env : SshEnv)
    (command encoding : String) (h : conn.connection_check = true) :
    Ssh.exec_command conn env command encoding =
      Except.ok
        { stdout := pyStrip (env.decode encoding (env.exec command).stdoutRaw),
          stderr := pyStrip (env.decode encoding (env.exec command).stderrRaw),
          exit_code := (env.exec command).exitStatus } ∧
    ((env.exec command).exitStatus = 7 →
      ∃ out, Ssh.exec_command conn env command encoding = Except.ok out ∧
        out.exit_code = 7) := by
  constructor
  · simp [Ssh.exec_command, h]
  · intro h7
    exact ⟨{ stdout := pyStrip (env.decode encoding (env.exec command).stdoutRaw),
             stderr := pyStrip (env.decode encoding (env.exec command).stderrRaw),
             exit_code := (env.exec command).exitStatus },
           by simp [Ssh.exec_command, h], by simpa using h7⟩

/-- Witness for C4: a live connection and an environment in which the
remote command exits with status 7. -/
theorem c4_exec_command_output_witness :
    Ssh.exec_command { connected := true }
        { exec := fun _ => { stdoutRaw := [32, 104, 105, 10], stderrRaw := [],
                             exitStatus := 7 },
          decode := fun _ bs => ⟨bs.map Char.ofNat⟩ } "exit 7" "utf-8" =
      Except.ok
        { stdout := pyStrip (String.mk ([32, 104, 105, 10].map Char.ofNat)),
          stderr := pyStrip (String.mk ([].map Char.ofNat)),
          exit_code := 7 } ∧
    ((7 : Int) = 7 →
      ∃ out, Ssh.exec_command { connected := true }
          { exec := fun _ => { stdoutRaw := [32, 104, 105, 10], stderrRaw := [],
                               exitStatus := 7 },
            decode := fun _ bs => ⟨bs.map Char.ofNat⟩ } "exit 7" "utf-8" =
          Except.ok out ∧ out.exit_code = 7) :=
  c4_exec_command_output { connected := true }
    { exec := fun _ => { stdoutRaw := [32, 104, 105, 10], stderrRaw := [],
                         exitStatus := 7 },
      decode := fun _ bs => ⟨bs.map Char.ofNat⟩ } "exit 7" "utf-8" rfl

/-- Handle of an open paramiko shell channel; `closed` records whether
`close()` has been called on it. -/
structure ShellHandle where
  closed : Bool
deriving DecidableEq

/-- State of `Channel` (`ssh_wrapper/Ssh/channel.py`): the `ssh_channel`
field, `none` until `open()` succeeds. -/
structure ChannelSt where
  ssh_channel : Option ShellHandle
deriving DecidableEq

/-- Observable interaction of `Channel.exec_command` with the shell
channel: a `send`, one 0.5 s sleep of the `recv_ready` poll, or a
`recv`. -/
inductive ChanEvent where
  | send (data : String) : ChanEvent
  | sleepHalf : ChanEvent
  | recv (maxBytes : Nat) : ChanEvent
deriving DecidableEq

/-- Environment of `Channel.exec_command`: after how many 0.5 s polls
`recv_ready()` becomes true, the raw bytes `recv(1024)` returns, and
`bytes.decode`. -/
structure ChanEnv where
  readyAfter : Nat
  recvRaw : List Nat
  decode : String → List Nat → String

/-- The sleeps of the `while not self.ssh_channel.recv_ready()` poll. -/
def pollEvents : Nat → List ChanEvent
  | 0 => []
  | n + 1 => ChanEvent.sleepHalf :: pollEvents n

/-- Mirror of `Channel.exec_command` (`ssh_wrapper/Ssh/channel.py`): the
`connected_channel_only` decorator raises when `ssh_channel` is unset
(note: it inspects only the channel handle); otherwise the command plus a
newline is sent, the poll loop sleeps until data is ready, and one
1024-byte chunk is received and decoded.  The first component lists the
interactions actually performed on the shell channel. -/
def Channel.exec_command (st : ChannelSt) (env : ChanEnv) (command : String)
    (encoding : String) : List ChanEvent × Except PyErr String :=
  match st.ssh_channel with
  | none => ([], .error (.sshException "Ssh chanel is not opened"))
  | some _ =>
    (ChanEvent.send (command ++ "\n") ::
        (pollEvents env.readyAfter ++ [ChanEvent.recv 1024]),
     .ok (env.decode encoding env.recvRaw))

/-- C5: on a `Channel` whose `open()` has not succeeded (`ssh_channel`
unset) the guarded `exec_command` fails with the channel-not-open error
and performs no interaction with the network: nothing is sent and no
receive is attempted. -/
theorem c5_channel_not_open_rejects (st : ChannelSt) (env : ChanEnv)
    (command encoding : String) (h : st.ssh_channel = none) :
    Channel.exec_command st env command encoding =
      ([], .error (.sshException "Ssh chanel is not opened")) := by
  simp [Channel.exec_command, h]

/-- Witness for C5: a freshly constructed channel state. -/
theorem c5_channel_not_open_rejects_witness :
    Channel.exec_command { ssh_channel := none }
        { readyAfter := 0, recvRaw := [], decode := fun _ bs => ⟨bs.map Char.ofNat⟩ }
        "ls" "utf-8" =
      ([], .error (.sshException "Ssh chanel is not opened")) :=
  c5_channel_not_open_rejects { ssh_channel := none }
    { readyAfter := 0, recvRaw := [], decode := fun _ bs => ⟨bs.map Char.ofNat⟩ }
    "ls" "utf-8" rfl

/-- C2 counterexample: the claim says every Channel operation is rejected
while the owning `Connection` reports disconnected, but the
`connected_channel_only` guard inspects only `ssh_channel`.  In the state
reached by `connect(); channel.open(); close()` the connection reports
disconnected while the channel handle is still set, and
`Channel.exec_command` proceeds: it sends the command and receives data
instead of being rejected. -/
theorem c2_counterexample :
    Connection.connection_check { connected := false } = false ∧
    Channel.exec_command { ssh_channel := some { closed := false } }
        { readyAfter := 1, recvRaw := [36, 32], decode := fun _ bs => ⟨bs.map Char.ofNat⟩ }
        "ls" "utf-8" =
      ([ChanEvent.send "ls\n", ChanEvent.sleepHalf, ChanEvent.recv 1024],
       Except.ok ⟨[36, 32].map Char.ofNat⟩) := by
  constructor
  · rfl
  · rfl

/-- C2 (amended): `Ssh.exec_command` is guarded by a connection check and
is rejected while the owning `Connection` reports disconnected; `Channel`
operations are guarded by a channel-open check and are rejected when the
channel handle is unset — the channel guard does not consult the
`Connection`, so a Channel operation with a surviving handle can proceed
while the `Connection` is disconnected. -/
theorem c2_guards (conn : Connection) (st : ChannelSt) (env : SshEnv)
    (cenv : ChanEnv) (command encoding : String)
    (hconn : conn.connection_check = false) (hchan : st.ssh_channel = none) :
    Ssh.exec_command conn env command encoding =
      Except.error (.sshException "Connection is not created") ∧
    Channel.exec_command st cenv command encoding =
      ([], .error (.sshException "Ssh chanel is not opened")) := by
  constructor
  · simp [Ssh.exec_command, hconn]
  · simp [Channel.exec_command, hchan]

/-- Witness for the amended C2 at the disconnected states. -/
theorem c2_guards_witness :
    Ssh.exec_command { connected := false }
        { exec := fun _ => { stdoutRaw := [], stderrRaw := [], exitStatus := 0 },
          decode := fun _ bs => ⟨bs.map Char.ofNat⟩ } "ls" "utf-8" =
      Except.error (.sshException "Connection is not created") ∧
    Channel.exec_command { ssh_channel := none }
        { readyAfter := 0, recvRaw := [], decode := fun _ bs => ⟨bs.map Char.ofNat⟩ }
        "ls" "utf-8" =
      ([], .error (.sshException "Ssh chanel is not opened")) :=
  c2_guards { connected := false } { ssh_channel := none }
    { exec := fun _ => { stdoutRaw := [], stderrRaw := [], exitStatus := 0 },
      decode := fun _ bs => ⟨bs.map Char.ofNat⟩ }
    { readyAfter := 0, recvRaw := [], decode := fun _ bs => ⟨bs.map Char.ofNat⟩ }
    "ls" "utf-8" rfl rfl

/-- The `timeout` argument of `wait_execute_service`, typed
`int | float | None` in the source; the deadline test fires only when
`isinstance(timeout, int)` holds. -/
inductive PyTimeout where
  | noLimit : PyTimeout
  | int (t : Int) : PyTimeout
  | float (x : ℚ) : PyTimeout

/-- The Python test `isinstance(timeout, int)`. -/
def PyTimeout.isInt : PyTimeout → Bool
  | .int _ => true
  | _ => false

/-- The `isinstance(timeout, int) and (time.time() - start_time) >=
timeout` test of `wait_execute_service`. -/
def timeoutExpired : PyTimeout → ℚ → Bool
  | .int t, elapsed => decide ((t : ℚ) ≤ elapsed)
  | _, _ => false

/-- How one call of `wait_execute_service` ended. -/
inductive WaitResult where
  | finished : WaitResult
  | timeoutErr : WaitResult
  | notConnected : WaitResult
  | fuelOut : WaitResult
deriving DecidableEq

/-- The status-polling loop of `wait_execute_service`, which runs while
the `systemctl is-active` query keeps answering the text `active`.  `active k` is whether the k-th
status query reports `active`, `elapsed` the seconds since `start_time`
(advanced by each `time.sleep(interval)`), and `fuel` bounds the number
of modelled iterations (.fuelOut marks a run still looping). -/
def Ssh.waitLoop (active : Nat → Bool) (timeout : PyTimeout) (interval : ℚ) :
    Nat → Nat → ℚ → WaitResult × ℚ
  | 0, _, elapsed => (.fuelOut, elapsed)
  | fuel + 1, k, elapsed =>
    if active k then
      if timeoutExpired timeout (elapsed + interval) then
        (.timeoutErr, elapsed + interval)
      else Ssh.waitLoop active timeout interval fuel (k + 1) (elapsed + interval)
    else (.finished, elapsed)

/-- Observable outcome of `wait_execute_service`: how the call ended, the
elapsed polling time, and what the `finally` block did. -/
structure WaitOut where
  result : WaitResult
  elapsed : ℚ
  statusStopped : Bool
  finalLogPrinted : Bool

/-- Mirror of `Ssh.wait_execute_service` (`ssh_wrapper/Ssh/ssh.py`): poll
the init system until the service stops reporting active; after each
`time.sleep(interval)` raise `SshException` when an `int` timeout has
been reached; the `finally` block stops the status bar (when
`status_bar`) and prints the final 1000-line log tail (when `stdout`) on
every exit path.  When the connection is down, the first guarded
`exec_command` raises before the loop, and the final-log print — itself a
guarded `exec_command` — raises as well, so no tail is printed. -/
def Ssh.wait_execute_service (conn : Connection) (active : Nat → Bool)
    (timeout : PyTimeout) (interval : ℚ) (status_bar stdoutFlag : Bool)
    (fuel : Nat) : WaitOut :=
  if conn.connection_check = false then
    { result := .notConnected, elapsed := 0, statusStopped := status_bar,
      finalLogPrinted := false }
  else
    let r := Ssh.waitLoop active timeout interval fuel 0 0
    { result := r.1, elapsed := r.2, statusStopped := status_bar,
      finalLogPrinted := stdoutFlag }

theorem waitLoop_int_timeout (active : Nat → Bool) (t : Int) (interval : ℚ)
    (hact : ∀ k, active k = true) :
    ∀ (fuel k : Nat) (elapsed : ℚ), elapsed < (t : ℚ) →
      (t : ℚ) ≤ (fuel : ℚ) * interval + elapsed →
      (Ssh.waitLoop active (.int t) interval fuel k elapsed).1 = .timeoutErr ∧
      (t : ℚ) ≤ (Ssh.waitLoop active (.int t) interval fuel k elapsed).2 := by
  intro fuel
  induction fuel with
  | zero =>
    intro k elapsed h1 h2
    push_cast at h2
    linarith
  | succ f ih =>
    intro k elapsed h1 h2
    by_cases hexp : (t : ℚ) ≤ elapsed + interval
    · have hex : timeoutExpired (.int t) (elapsed + interval) = true := by
        simpa [timeoutExpired] using hexp
      simp [Ssh.waitLoop, hact k, hex, hexp]
    · have hex : timeoutExpired (.int t) (elapsed + interval) = false := by
        simpa [timeoutExpired] using hexp
      have hrec := ih (k + 1) (elapsed + interval) (by linarith) (by push_cast at h2 ⊢; linarith)
      simpa [Ssh.waitLoop, hact k, hex] using hrec

/-- C3: `wait_execute_service` with an explicit `int` timeout, polling a
service that never stops reporting active on a live connection, raises
the timeout error once the elapsed time reaches the timeout, and the
guaranteed cleanup still runs on that failing path: the progress
indicator is stopped and the final 1000-line log tail is still printed. -/
theorem c3_wait_service_times_out (conn : Connection) (active : Nat → Bool)
    (t : Int) (interval : ℚ) (fuel : Nat)
    (hconn : conn.connection_check = true) (hact : ∀ k, active k = true)
    (ht : 0 < t) (hfuel : (t : ℚ) ≤ (fuel : ℚ) * interval) :
    (Ssh.wait_execute_service conn active (.int t) interval true true fuel).result =
      .timeoutErr ∧
    (t : ℚ) ≤ (Ssh.wait_execute_service conn active (.int t) interval true true fuel).elapsed ∧
    (Ssh.wait_execute_service conn active (.int t) interval true true fuel).statusStopped = true ∧
    (Ssh.wait_execute_service conn active (.int t) interval true true fuel).finalLogPrinted = true := by
  have h0 : (0 : ℚ) < (t : ℚ) := by exact_mod_cast ht
  have hmain := waitLoop_int_timeout active t interval hact fuel 0 0 h0 (by simpa using hfuel)
  unfold Ssh.wait_execute_service
  rw [hconn]
  exact ⟨by simpa using hmain.1, by simpa using hmain.2, rfl, rfl⟩

/-- Witness for C3: a live connection, an always-active service, a 2 s
timeout with a 1 s polling interval and two loop iterations. -/
theorem c3_wait_service_times_out_witness :
    (Ssh.wait_execute_service { connected := true } (fun _ => true)
        (.int 2) 1 true true 2).result = .timeoutErr ∧
    ((2 : Int) : ℚ) ≤ (Ssh.wait_execute_service { connected := true } (fun _ => true)
        (.int 2) 1 true true 2).elapsed ∧
    (Ssh.wait_execute_service { connected := true } (fun _ => true)
        (.int 2) 1 true true 2).statusStopped = true ∧
    (Ssh.wait_execute_service { connected := true } (fun _ => true)
        (.int 2) 1 true true 2).finalLogPrinted = true :=
  c3_wait_service_times_out { connected := true } (fun _ => true) 2 1 2
    rfl (fun _ => rfl) (by decide) (by simp)

theorem waitLoop_not_int (active : Nat → Bool) (timeout : PyTimeout)
    (interval : ℚ) (hnot : timeout.isInt = false) :
    ∀ fuel k elapsed,
      (Ssh.waitLoop active timeout interval fuel k elapsed).1 ≠ .timeoutErr ∧
      ((∀ j, active j = true) →
        (Ssh.waitLoop active timeout interval fuel k elapsed).1 = .fuelOut) := by
  have hex : ∀ e, timeoutExpired timeout e = false := by
    intro e
    cases timeout with
    | noLimit => rfl
    | int t => simp [PyTimeout.isInt] at hnot
    | float x => rfl
  intro fuel
  induction fuel with
  | zero => intro k elapsed; exact ⟨by simp [Ssh.waitLoop], fun _ => rfl⟩
  | succ f ih =>
    intro k elapsed
    by_cases hk : active k = true
    · have hrec := ih (k + 1) (elapsed + interval)
      constructor
      · simpa [Ssh.waitLoop, hk, hex] using hrec.1
      · intro hall
        simpa [Ssh.waitLoop, hk, hex] using hrec.2 hall
    · simp only [Bool.not_eq_true] at hk
      constructor
      · simp [Ssh.waitLoop, hk]
      · intro hall
        rw [hall k] at hk
        cases hk

/-- C10: when the `timeout` argument of `wait_execute_service` is not an
`int` (for example the float `2.0`), `isinstance(timeout, int)` is false,
so the deadline test is skipped entirely: no timeout error is ever
raised no matter how much time elapses, and the loop keeps polling for
as long as the service reports active. -/
theorem c10_non_int_timeout_skipped (conn : Connection) (active : Nat → Bool)
    (timeout : PyTimeout) (interval : ℚ) (status_bar stdoutFlag : Bool)
    (fuel : Nat) (hconn : conn.connection_check = true)
    (hnot : timeout.isInt = false) :
    (Ssh.wait_execute_service conn active timeout interval status_bar
        stdoutFlag fuel).result ≠ .timeoutErr ∧
    ((∀ j, active j = true) →
      (Ssh.wait_execute_service conn active timeout interval status_bar
          stdoutFlag fuel).result = .fuelOut) := by
  have hmain := waitLoop_not_int active timeout interval hnot fuel 0 0
  simp only [Ssh.wait_execute_service, hconn, Bool.true_eq_false, if_false]
  exact hmain

/-- Witness for C10: the float timeout `2.0` against an always-active
service — after 100 polling iterations the loop is still running and no
timeout error was raised. -/
theorem c10_non_int_timeout_skipped_witness :
    ((Ssh.wait_execute_service { connected := true } (fun _ => true)
        (.float 2) 1 true true 100).result ≠ .timeoutErr ∧
      ((∀ j, (fun (_ : Nat) => true) j = true) →
        (Ssh.wait_execute_service { connected := true } (fun _ => true)
            (.float 2) 1 true true 100).result = .fuelOut)) :=
  c10_non_int_timeout_skipped { connected := true } (fun _ => true)
    (.float 2) 1 true true 100 rfl rfl

/-- The four facade-like components of the repository. -/
inductive PyClass where
  | connection : PyClass
  | channel : PyClass
  | ssh : PyClass
  | sftp : PyClass
deriving DecidableEq

/-- Which of the four classes define the context-manager pair
`__enter__`/`__exit__` in the source: `Channel`, `Ssh` and `Sftp` do;
`Connection` (`ssh_wrapper/connection.py`) defines neither, so a
`with Connection(...)` block fails before entering. -/
def definesContextManager : PyClass → Bool
  | .connection => false
  | .channel => true
  | .ssh => true
  | .sftp => true

/-- Mirror of `with Ssh(server): body`: `__enter__` calls
`self.connect()` (= `Connection.create` on the freshly constructed
connection) and `__exit__` calls `self.close()` (= `Connection.delete`)
on every exit path of the block, the body raising included; the body
outcome is returned alongside the final connection state. -/
def Ssh.withBracket (attempts : Nat → AttemptResult) (server : ServerData)
    (body : Connection → Except PyErr Unit) :
    Except PyErr (Connection × Except PyErr Unit) :=
  match Connection.create attempts server Connection.init with
  | .error e => .error e
  | .ok conn => .ok (conn.delete, body conn)

/-- Handle of an open SFTP sub-session; `closed` records `close()`. -/
structure SftpHandle where
  closed : Bool
deriving DecidableEq

/-- State of `Sftp` (`ssh_wrapper/Sftp/sftp.py`): the owned connection
and the `client` field, `none` until `connect()` opened the sub-session. -/
structure SftpSt where
  conn : Connection
  client : Option SftpHandle
deriving DecidableEq

/-- Mirror of `Sftp.connect`: ensure the underlying connection is live
(creating it when it is not), then open the SFTP sub-session on top of
it; the paramiko `open_sftp` call on a client whose session never became
live raises. -/
def Sftp.connect (attempts : Nat → AttemptResult) (server : ServerData)
    (s : SftpSt) : Except PyErr SftpSt :=
  match (if s.conn.connection_check then Except.ok s.conn
         else Connection.create attempts server s.conn) with
  | .error e => .error e
  | .ok conn =>
    if conn.connected then
      .ok { conn := conn, client := some { closed := false } }
    else .error (.sshException "SSH session not active")

/-- Mirror of `Sftp.close`: close the sub-session when one is open. -/
def Sftp.close (s : SftpSt) : SftpSt :=
  match s.client with
  | none => s
  | some _ => { s with client := some { closed := true } }

/-- Mirror of `with Sftp(server): body`: `__enter__` calls `connect`,
`__exit__` calls `close` on every exit path of the block. -/
def Sftp.withBracket (attempts : Nat → AttemptResult) (server : ServerData)
    (body : SftpSt → Except PyErr Unit) (s : SftpSt) :
    Except PyErr (SftpSt × Except PyErr Unit) :=
  match Sftp.connect attempts server s with
  | .error e => .error e
  | .ok s1 => .ok (Sftp.close s1, body s1)

/-- The `while ... and self.ssh_channel is None` retry loop of
`Channel.open`: `invokeShellOk k` is whether the k-th `invoke_shell`
succeeds (a failing one raises `paramiko.SSHException`, which is caught,
logged and followed by a 1 s sleep). -/
def Channel.openLoop (invokeShellOk : Nat → Bool) :
    Nat → Nat → Option ShellHandle
  | 0, _ => none
  | remaining + 1, k =>
    if invokeShellOk k then some { closed := false }
    else Channel.openLoop invokeShellOk remaining (k + 1)

/-- Mirror of `Channel.open`: retry `invoke_shell` until it succeeds or
the `connection_timeout` of the session has elapsed; on timeout the handle
simply remains unset. -/
def Channel.open (invokeShellOk : Nat → Bool) (server : ServerData)
    (st : ChannelSt) : ChannelSt :=
  match st.ssh_channel with
  | some _ => st
  | none =>
    { ssh_channel := Channel.openLoop invokeShellOk server.connection_timeout 0 }

/-- Mirror of `Channel.close`: `self.ssh_channel.close()` with no open
guard — on a never-opened channel this is `None.close()`, an
`AttributeError`. -/
def Channel.close (st : ChannelSt) : Except PyErr ChannelSt :=
  match st.ssh_channel with
  | none => .error .attributeError
  | some _ => .ok { ssh_channel := some { closed := true } }

/-- Mirror of `with Channel(client, server): body`: `__enter__` calls
`open` (which never raises), the body runs, and `__exit__` calls `close`
on every exit path; when `close` itself raises, that error propagates. -/
def Channel.withBracket (invokeShellOk : Nat → Bool) (server : ServerData)
    (body : ChannelSt → Except PyErr Unit) (st : ChannelSt) :
    Except PyErr (ChannelSt × Except PyErr Unit) :=
  let st1 := Channel.open invokeShellOk server st
  let r := body st1
  match Channel.close st1 with
  | .error e => .error e
  | .ok st2 => .ok (st2, r)

/-- C6 counterexample: the claim covers all four facade-like components,
but `Connection` defines no `__enter__`/`__exit__` in
`ssh_wrapper/connection.py` — only `Channel`, `Ssh` and `Sftp` do — so
`Connection` does not support enter/exit bracketing. -/
theorem c6_counterexample : definesContextManager PyClass.connection = false :=
  rfl

/-- C6 (amended): `Channel`, `Ssh` and `Sftp` — but not `Connection`,
which defines no `__enter__`/`__exit__` — support enter/exit bracketing
that connects (or opens) on enter and closes on exit even when the
enclosed body fails: whenever the bracket completes, the Ssh connection
is deleted, the Sftp sub-session is closed, and the shell channel is
closed, whatever the body outcome was. -/
theorem c6_bracketing (attempts : Nat → AttemptResult)
    (invokeShellOk : Nat → Bool) (server : ServerData)
    (bodyS : Connection → Except PyErr Unit)
    (bodyF : SftpSt → Except PyErr Unit)
    (bodyC : ChannelSt → Except PyErr Unit) (s : SftpSt) (st : ChannelSt) :
    (definesContextManager PyClass.channel = true ∧
     definesContextManager PyClass.ssh = true ∧
     definesContextManager PyClass.sftp = true ∧
     definesContextManager PyClass.connection = false) ∧
    (∀ conn r, Ssh.withBracket attempts server bodyS = .ok (conn, r) →
      conn.connected = false) ∧
    (∀ s2 r, Sftp.withBracket attempts server bodyF s = .ok (s2, r) →
      s2.client = some { closed := true }) ∧
    (∀ st2 r, Channel.withBracket invokeShellOk server bodyC st = .ok (st2, r) →
      st2.ssh_channel = some { closed := true }) := by
  refine ⟨⟨rfl, rfl, rfl, rfl⟩, ?_, ?_, ?_⟩
  · intro conn r h
    unfold Ssh.withBracket at h
    cases hc : Connection.create attempts server Connection.init with
    | error e => rw [hc] at h; cases h
    | ok c =>
      rw [hc] at h
      cases h
      unfold Connection.delete
      by_cases hcc : c.connected <;> simp [hcc]
  · intro s2 r h
    unfold Sftp.withBracket at h
    cases hc : Sftp.connect attempts server s with
    | error e => rw [hc] at h; cases h
    | ok s1 =>
      rw [hc] at h
      cases h
      unfold Sftp.connect at hc
      cases hd : (if s.conn.connection_check then Except.ok s.conn
                  else Connection.create attempts server s.conn) with
      | error e => rw [hd] at hc; cases hc
      | ok conn =>
        rw [hd] at hc
        by_cases hcon : conn.connected
        · simp only [hcon, if_true] at hc
          cases hc
          rfl
        · simp [hcon] at hc
  · intro st2 r h
    unfold Channel.withBracket at h
    cases hc : Channel.close (Channel.open invokeShellOk server st) with
    | error e => simp only [hc] at h; cases h
    | ok stc =>
      simp only [hc] at h
      cases h
      unfold Channel.close at hc
      cases hd : (Channel.open invokeShellOk server st).ssh_channel with
      | none => rw [hd] at hc; cases hc
      | some hdl => rw [hd] at hc; cases hc; rfl

/-- Witness for the amended C6: a server whose first authentication and
first `invoke_shell` attempt succeed and brackets whose bodies all raise;
each bracket run evaluates to a closed final state. -/
theorem c6_bracketing_witness :
    ({ connected := false } : Connection).connected = false ∧
    ({ conn := { connected := true }, client := some { closed := true } } : SftpSt).client =
      some { closed := true } ∧
    ({ ssh_channel := some { closed := true } } : ChannelSt).ssh_channel =
      some { closed := true } := by
  have T := c6_bracketing (fun _ => AttemptResult.success) (fun _ => true)
    { ip := "10.0.0.5", username := "root", connection_timeout := 3 }
    (fun _ => Except.error PyErr.unhandled)
    (fun _ => Except.error PyErr.unhandled)
    (fun _ => Except.error PyErr.unhandled)
    { conn := Connection.init, client := none } { ssh_channel := none }
  exact ⟨T.2.1 { connected := false } (Except.error PyErr.unhandled) rfl,
         T.2.2.1 { conn := { connected := true }, client := some { closed := true } }
           (Except.error PyErr.unhandled) rfl,
         T.2.2.2 { ssh_channel := some { closed := true } }
           (Except.error PyErr.unhandled) rfl⟩

/-- A filesystem path as the list of its components; the source joins
paths one component at a time with `posixpath.join`/`os.path.join`. -/
abbrev FsPath := List String

/-- The non-empty initial segments of a path: the chain of directories
`os.makedirs` creates. -/
def ancestorChains (p : FsPath) : List FsPath :=
  (List.range p.length).map (fun n => p.take (n + 1))

/-- Append the missing directories of `l` to `ds`, keeping existing
entries: `os.makedirs(..., exist_ok=True)` never fails on a
pre-existing directory. -/
def addDirs (ds : List FsPath) : List FsPath → List FsPath
  | [] => ds
  | d :: rest => addDirs (if d ∈ ds then ds else ds ++ [d]) rest

/-- Overwrite-or-append an association: what writing a local file does
to the table of files. -/
def setAssoc : List (FsPath × String) → FsPath → String → List (FsPath × String)
  | [], p, c => [(p, c)]
  | (q, d) :: rest, p, c =>
    if q = p then (p, c) :: rest else (q, d) :: setAssoc rest p c

/-- The local filesystem visible to `Sftp`: the directories that exist
and the regular files with their contents. -/
structure LocalFS where
  dirs : List FsPath
  files : List (FsPath × String)
deriving DecidableEq

/-- Whether the directory `p` exists locally. -/
def LocalFS.hasDir (fs : LocalFS) (p : FsPath) : Bool :=
  decide (p ∈ fs.dirs)

/-- The content of the local file `p`, when it exists. -/
def LocalFS.readFile (fs : LocalFS) (p : FsPath) : Option String :=
  (fs.files.find? (fun e => decide (e.1 = p))).map (fun e => e.2)

/-- The Python predicate `os.path.exists`. -/
def LocalFS.existsPath (fs : LocalFS) (p : FsPath) : Bool :=
  fs.hasDir p || (fs.readFile p).isSome

/-- Mirror of `os.makedirs(p, exist_ok=True)`: create `p` and its missing
ancestors; pre-existing directories are left alone. -/
def LocalFS.makedirs (fs : LocalFS) (p : FsPath) : LocalFS :=
  { fs with dirs := addDirs fs.dirs (ancestorChains p) }

/-- What `client.get(remote, local)` does locally: write the file. -/
def LocalFS.writeFile (fs : LocalFS) (p : FsPath) (c : String) : LocalFS :=
  { fs with files := setAssoc fs.files p c }

mutual
/-- The remote tree the SFTP server exposes: what `lstat`,
`listdir_attr` and `get` answer from. -/
inductive RTree where
  | file (content : String) : RTree
  | dir (entries : REntries) : RTree
deriving DecidableEq
inductive REntries where
  | nil : REntries
  | cons (name : String) (t : RTree) (rest : REntries) : REntries
deriving DecidableEq
end

/-- Mirror of `stat.S_ISDIR`: the file-type bits (mask 0o170000) equal 0o040000. -/
def S_ISDIR (m : Nat) : Bool :=
  Nat.land m 61440 == 16384

/-- The `st_mode` bits `lstat`/`listdir_attr` report: 0o100644 for a
regular file, 0o040755 for a directory. -/
def RTree.mode : RTree → Nat
  | .file _ => 33188
  | .dir _ => 16877

/-- Shape of a remote node. -/
def RTree.isDirT : RTree → Bool
  | .file _ => false
  | .dir _ => true

theorem S_ISDIR_mode (t : RTree) : S_ISDIR t.mode = t.isDirT := by
  cases t with
  | file c =>
    show S_ISDIR 33188 = false
    decide
  | dir es =>
    show S_ISDIR 16877 = true
    decide

/-- The entry names of one remote listing, in listing order. -/
def REntries.namesOf : REntries → List String
  | .nil => []
  | .cons name _ rest => name :: rest.namesOf

/-- No duplicate names in a listing — what a real directory listing
always satisfies. -/
def nodupNames : List String → Bool
  | [] => true
  | x :: xs => !(decide (x ∈ xs)) && nodupNames xs

mutual
/-- Well-formed remote tree: every directory listing has pairwise
distinct entry names. -/
def RTree.wfTree : RTree → Bool
  | .file _ => true
  | .dir es => nodupNames es.namesOf && es.wfEntries
def REntries.wfEntries : REntries → Bool
  | .nil => true
  | .cons _ t rest => t.wfTree && rest.wfEntries
end

/-- The message of the `connected_sftp_only` guard. -/
def sftpGuardMsg (server : ServerData) : String :=
  "|" ++ server.custom_name ++ "|" ++ server.ip ++ "| Sftp channel not created."

/-- Mirror of the body of `Sftp.download_file` at the remote node the
path names: create the missing parents of the local path
(`os.makedirs(os.path.dirname(local), exist_ok=True)`) and `get` the
file; the paramiko `get` call on a directory raises. -/
def downloadFileNode : RTree → FsPath → FsPath → LocalFS → Except PyErr LocalFS
  | .file c, _, lpath, fs => .ok ((fs.makedirs lpath.dropLast).writeFile lpath c)
  | .dir _, _, _, _ => .error .unhandled

mutual
/-- Mirror of the body of `Sftp.download_dir` at the remote node `t`
named by `rpath`: fail when the node is not a directory, create the
local directory, then walk the listing in order. -/
def downloadDirNode : RTree → FsPath → FsPath → LocalFS → Except PyErr LocalFS
  | .file _, rpath, _, _ =>
    .error (.sftpException
      ("|ERROR| Remote object is not a directory: " ++ String.intercalate "/" rpath))
  | .dir es, rpath, lpath, fs => downloadEntries es rpath lpath (fs.makedirs lpath)
/-- The `for entry in self.client.listdir_attr(remote)` loop: directory
entries recurse into `download_dir`, others into `download_file`. -/
def downloadEntries : REntries → FsPath → FsPath → LocalFS → Except PyErr LocalFS
  | .nil, _, _, fs => .ok fs
  | .cons name t rest, rpath, lpath, fs =>
    if S_ISDIR t.mode then
      match downloadDirNode t (rpath ++ [name]) (lpath ++ [name]) fs with
      | .error e => .error e
      | .ok fs1 => downloadEntries rest rpath lpath fs1
    else
      match downloadFileNode t (rpath ++ [name]) (lpath ++ [name]) fs with
      | .error e => .error e
      | .ok fs1 => downloadEntries rest rpath lpath fs1
end

/-- Mirror of `Sftp.download_dir` with its `connected_sftp_only` guard. -/
def Sftp.download_dir (s : SftpSt) (server : ServerData) (t : RTree)
    (rpath lpath : FsPath) (fs : LocalFS) : Except PyErr LocalFS :=
  match s.client with
  | none => .error (.sftpException (sftpGuardMsg server))
  | some _ => downloadDirNode t rpath lpath fs

/-- Mirror of `Sftp.download_file` with its `connected_sftp_only` guard. -/
def Sftp.download_file (s : SftpSt) (server : ServerData) (t : RTree)
    (rpath lpath : FsPath) (fs : LocalFS) : Except PyErr LocalFS :=
  match s.client with
  | none => .error (.sftpException (sftpGuardMsg server))
  | some _ => downloadFileNode t rpath lpath fs

/-- Mirror of `Sftp.download`: guard, then inspect
`stat.S_ISDIR(self.client.lstat(remote).st_mode)` and dispatch. -/
def Sftp.download (s : SftpSt) (server : ServerData) (t : RTree)
    (rpath lpath : FsPath) (fs : LocalFS) : Except PyErr LocalFS :=
  match s.client with
  | none => .error (.sftpException (sftpGuardMsg server))
  | some _ =>
    if S_ISDIR t.mode then Sftp.download_dir s server t rpath lpath fs
    else Sftp.download_file s server t rpath lpath fs

/-- C7: on an open sub-session `Sftp.download` inspects the remote
mode bits of the remote node and takes exactly one branch: a directory-mode node
dispatches to `download_dir`, any other node to `download_file`. -/
theorem c7_download_dispatch (s : SftpSt) (server : ServerData)
    (hdl : SftpHandle) (t : RTree) (rpath lpath : FsPath) (fs : LocalFS)
    (h : s.client = some hdl) :
    (∀ es, t = RTree.dir es →
      Sftp.download s server t rpath lpath fs =
        Sftp.download_dir s server t rpath lpath fs) ∧
    (∀ c, t = RTree.file c →
      Sftp.download s server t rpath lpath fs =
        Sftp.download_file s server t rpath lpath fs) := by
  constructor
  · intro es ht
    subst ht
    simp [Sftp.download, h, S_ISDIR_mode, RTree.isDirT]
  · intro c ht
    subst ht
    simp [Sftp.download, h, S_ISDIR_mode, RTree.isDirT]

/-- Witness for C7: an open sub-session, a directory node and a file
node. -/
theorem c7_download_dispatch_witness :
    Sftp.download { conn := { connected := true }, client := some { closed := false } }
        { ip := "10.0.0.5", username := "root" } (RTree.dir .nil) ["r"] ["l"]
        { dirs := [], files := [] } =
      Sftp.download_dir { conn := { connected := true }, client := some { closed := false } }
        { ip := "10.0.0.5", username := "root" } (RTree.dir .nil) ["r"] ["l"]
        { dirs := [], files := [] } ∧
    Sftp.download { conn := { connected := true }, client := some { closed := false } }
        { ip := "10.0.0.5", username := "root" } (RTree.file "x") ["r"] ["l"]
        { dirs := [], files := [] } =
      Sftp.download_file { conn := { connected := true }, client := some { closed := false } }
        { ip := "10.0.0.5", username := "root" } (RTree.file "x") ["r"] ["l"]
        { dirs := [], files := [] } :=
  ⟨(c7_download_dispatch
      { conn := { connected := true }, client := some { closed := false } }
      { ip := "10.0.0.5", username := "root" } { closed := false }
      (RTree.dir .nil) ["r"] ["l"] { dirs := [], files := [] } rfl).1 .nil rfl,
   (c7_download_dispatch
      { conn := { connected := true }, client := some { closed := false } }
      { ip := "10.0.0.5", username := "root" } { closed := false }
      (RTree.file "x") ["r"] ["l"] { dirs := [], files := [] } rfl).2 "x" rfl⟩

/-- Transfer actually attempted by `Sftp.upload_file`. -/
inductive SftpEvent where
  | put (localPath remotePath : FsPath) (confirm : Bool) : SftpEvent
deriving DecidableEq

/-- Mirror of `Sftp.upload_file`: the `connected_sftp_only` guard raises
when the sub-session is not open; a missing local file raises
`FileNotFoundError`; otherwise the file is transferred with
`client.put(..., confirm=True)`.  The first component lists the transfer
calls actually performed. -/
def Sftp.upload_file (s : SftpSt) (server : ServerData) (fs : LocalFS)
    (localPath remotePath : FsPath) : List SftpEvent × Except PyErr Unit :=
  match s.client with
  | none => ([], .error (.sftpException (sftpGuardMsg server)))
  | some _ =>
    if fs.existsPath localPath = false then
      ([], .error (.fileNotFoundError
        ("|" ++ server.custom_name ++ "|" ++ server.ip ++
          "|Local file does not exist: " ++ String.intercalate "/" localPath)))
    else
      ([SftpEvent.put localPath remotePath true], .ok ())

/-- C8: `Sftp.upload_file` checks its two preconditions before any
transfer: with the sub-session not open it fails with the not-open
error, and with the local file missing it fails with the file-not-found
error; in both cases no `put` is attempted. -/
theorem c8_upload_preconditions (s sOpen : SftpSt) (server : ServerData)
    (fs : LocalFS) (hdl : SftpHandle) (localPath remotePath : FsPath)
    (hclosed : s.client = none) (hopen : sOpen.client = some hdl)
    (hmissing : fs.existsPath localPath = false) :
    Sftp.upload_file s server fs localPath remotePath =
      ([], .error (.sftpException (sftpGuardMsg server))) ∧
    Sftp.upload_file sOpen server fs localPath remotePath =
      ([], .error (.fileNotFoundError
        ("|" ++ server.custom_name ++ "|" ++ server.ip ++
          "|Local file does not exist: " ++ String.intercalate "/" localPath))) := by
  constructor
  · simp [Sftp.upload_file, hclosed]
  · simp [Sftp.upload_file, hopen, hmissing]

/-- Witness for C8: one closed and one open sub-session over an empty
local filesystem. -/
theorem c8_upload_preconditions_witness :
    Sftp.upload_file { conn := { connected := true }, client := none }
        { ip := "10.0.0.5", username := "root" } { dirs := [], files := [] }
        ["f"] ["g"] =
      ([], .error (.sftpException
        (sftpGuardMsg { ip := "10.0.0.5", username := "root" }))) ∧
    Sftp.upload_file { conn := { connected := true }, client := some { closed := false } }
        { ip := "10.0.0.5", username := "root" } { dirs := [], files := [] }
        ["f"] ["g"] =
      ([], .error (.fileNotFoundError
        ("|" ++ ServerData.custom_name { ip := "10.0.0.5", username := "root" } ++ "|" ++
          ServerData.ip { ip := "10.0.0.5", username := "root" } ++
          "|Local file does not exist: " ++ String.intercalate "/" ["f"]))) :=
  c8_upload_preconditions
    { conn := { connected := true }, client := none }
    { conn := { connected := true }, client := some { closed := false } }
    { ip := "10.0.0.5", username := "root" } { dirs := [], files := [] }
    { closed := false } ["f"] ["g"] rfl rfl rfl

theorem mem_addDirs (q : FsPath) :
    ∀ (l ds : List FsPath), q ∈ ds ∨ q ∈ l → q ∈ addDirs ds l := by
  intro l
  induction l with
  | nil =>
    intro ds h
    rcases h with h | h
    · exact h
    · cases h
  | cons d rest ih =>
    intro ds h
    unfold addDirs
    apply ih
    by_cases hd : d ∈ ds
    · rw [if_pos hd]
      rcases h with h | h
      · exact Or.inl h
      · rcases List.mem_cons.mp h with rfl | h
        · exact Or.inl hd
        · exact Or.inr h
    · rw [if_neg hd]
      rcases h with h | h
      · exact Or.inl (List.mem_append_left _ h)
      · rcases List.mem_cons.mp h with rfl | h
        · exact Or.inl (List.mem_append_right _ (List.mem_singleton.mpr rfl))
        · exact Or.inr h

theorem self_mem_ancestorChains (p : FsPath) (h : p ≠ []) :
    p ∈ ancestorChains p := by
  unfold ancestorChains
  have hlen : 0 < p.length := List.length_pos.mpr h
  refine List.mem_map.mpr ⟨p.length - 1, List.mem_range.mpr (by omega), ?_⟩
  have he : p.length - 1 + 1 = p.length := by omega
  rw [he, List.take_length]

theorem hasDir_makedirs_self (fs : LocalFS) (p : FsPath) (h : p ≠ []) :
    (fs.makedirs p).hasDir p = true := by
  unfold LocalFS.makedirs LocalFS.hasDir
  simp only [decide_eq_true_eq]
  exact mem_addDirs p (ancestorChains p) fs.dirs (Or.inr (self_mem_ancestorChains p h))

theorem hasDir_makedirs_mono (fs : LocalFS) (p q : FsPath)
    (h : fs.hasDir q = true) : (fs.makedirs p).hasDir q = true := by
  unfold LocalFS.hasDir at h ⊢
  unfold LocalFS.makedirs
  simp only [decide_eq_true_eq] at h ⊢
  exact mem_addDirs q (ancestorChains p) fs.dirs (Or.inl h)

theorem readFile_makedirs (fs : LocalFS) (p q : FsPath) :
    (fs.makedirs p).readFile q = fs.readFile q := rfl

theorem hasDir_writeFile (fs : LocalFS) (p q : FsPath) (c : String) :
    (fs.writeFile p c).hasDir q = fs.hasDir q := rfl

theorem find?_setAssoc_self :
    ∀ (l : List (FsPath × String)) (p : FsPath) (c : String),
      (setAssoc l p c).find? (fun e => decide (e.1 = p)) = some (p, c) := by
  intro l
  induction l with
  | nil =>
    intro p c
    unfold setAssoc
    exact List.find?_cons_of_pos _ (by simp)
  | cons e rest ih =>
    intro p c
    obtain ⟨q, d⟩ := e
    unfold setAssoc
    by_cases hq : q = p
    · rw [if_pos hq]
      exact List.find?_cons_of_pos _ (by simp)
    · rw [if_neg hq]
      rw [List.find?_cons_of_neg _ (by simp [hq])]
      exact ih p c

theorem find?_setAssoc_ne :
    ∀ (l : List (FsPath × String)) (p q : FsPath) (c : String), q ≠ p →
      (setAssoc l p c).find? (fun e => decide (e.1 = q)) =
        l.find? (fun e => decide (e.1 = q)) := by
  intro l
  induction l with
  | nil =>
    intro p q c hne
    unfold setAssoc
    rw [List.find?_cons_of_neg _ (by simp [Ne.symm hne])]
  | cons e rest ih =>
    intro p q c hne
    obtain ⟨r, d⟩ := e
    unfold setAssoc
    by_cases hr : r = p
    · subst hr
      rw [if_pos rfl]
      rw [List.find?_cons_of_neg _ (by simp [Ne.symm hne]),
          List.find?_cons_of_neg _ (by simp [Ne.symm hne])]
    · rw [if_neg hr]
      by_cases hq : r = q
      · subst hq
        rw [List.find?_cons_of_pos _ (by simp), List.find?_cons_of_pos _ (by simp)]
      · rw [List.find?_cons_of_neg _ (by simp [hq]),
            List.find?_cons_of_neg _ (by simp [hq])]
        exact ih p q c hne

theorem readFile_writeFile_self (fs : LocalFS) (p : FsPath) (c : String) :
    (fs.writeFile p c).readFile p = some c := by
  unfold LocalFS.writeFile LocalFS.readFile
  rw [find?_setAssoc_self]
  rfl

theorem readFile_writeFile_ne (fs : LocalFS) (p q : FsPath) (c : String)
    (h : q ≠ p) : (fs.writeFile p c).readFile q = fs.readFile q := by
  unfold LocalFS.writeFile LocalFS.readFile
  rw [find?_setAssoc_ne fs.files p q c h]

theorem nodupNames_cons (x : String) (xs : List String)
    (h : nodupNames (x :: xs) = true) : x ∉ xs ∧ nodupNames xs = true := by
  unfold nodupNames at h
  simp only [Bool.and_eq_true, Bool.not_eq_true', decide_eq_false_iff_not] at h
  exact h

theorem cons_path_ne (base : FsPath) (m n : String) (q r : List String)
    (hne : m ≠ n) : base ++ m :: q ≠ base ++ n :: r := by
  intro h
  have h2 := List.append_cancel_left h
  exact hne (List.cons_eq_cons.mp h2).1

mutual
theorem downloadDirNode_dir_ok (t : RTree) :
    ∀ (rpath lpath : FsPath) (fs : LocalFS), t.isDirT = true →
      ∃ fs', downloadDirNode t rpath lpath fs = Except.ok fs' := by
  cases t with
  | file c =>
    intro rpath lpath fs h
    cases h
  | dir es =>
    intro rpath lpath fs _
    have h := downloadEntries_ok es rpath lpath (fs.makedirs lpath)
    simpa [downloadDirNode] using h
theorem downloadEntries_ok (es : REntries) :
    ∀ (rpath lpath : FsPath) (fs : LocalFS),
      ∃ fs', downloadEntries es rpath lpath fs = Except.ok fs' := by
  cases es with
  | nil =>
    intro rpath lpath fs
    exact ⟨fs, rfl⟩
  | cons name t rest =>
    intro rpath lpath fs
    cases t with
    | file c =>
      have hrest := downloadEntries_ok rest rpath lpath
        ((fs.makedirs (lpath ++ [name]).dropLast).writeFile (lpath ++ [name]) c)
      obtain ⟨fs', h⟩ := hrest
      refine ⟨fs', ?_⟩
      simp only [downloadEntries, S_ISDIR_mode, RTree.isDirT, Bool.false_eq_true,
        if_false, downloadFileNode]
      exact h
    | dir es2 =>
      have hdir := downloadDirNode_dir_ok (RTree.dir es2) (rpath ++ [name])
        (lpath ++ [name]) fs rfl
      obtain ⟨fs1, h1⟩ := hdir
      obtain ⟨fs', h2⟩ := downloadEntries_ok rest rpath lpath fs1
      refine ⟨fs', ?_⟩
      simp only [downloadEntries, S_ISDIR_mode, RTree.isDirT, if_true]
      rw [h1]
      exact h2
end

mutual
/-- The local tree mirrors the remote one: the directory exists and
every remote file is present with its remote content. -/
def treeComplete : RTree → FsPath → LocalFS → Bool
  | .file c, p, fs => fs.readFile p == some c
  | .dir es, p, fs => fs.hasDir p && entriesComplete es p fs
/-- Conjunction of `treeComplete` over every entry of a listing. -/
def entriesComplete : REntries → FsPath → LocalFS → Bool
  | .nil, _, _ => true
  | .cons n t rest, p, fs => treeComplete t (p ++ [n]) fs && entriesComplete rest p fs
end

mutual
theorem readFile_downloadDirNode (t : RTree) :
    ∀ (rpath lpath : FsPath) (fs fs' : LocalFS) (p : FsPath),
      downloadDirNode t rpath lpath fs = Except.ok fs' →
      (∀ q, p ≠ lpath ++ q) →
      fs'.readFile p = fs.readFile p := by
  cases t with
  | file c =>
    intro rpath lpath fs fs' p h _
    simp [downloadDirNode] at h
  | dir es =>
    intro rpath lpath fs fs' p h hout
    simp only [downloadDirNode] at h
    have hq := readFile_downloadEntries es rpath lpath (fs.makedirs lpath) fs' p h
      (fun m q _ => hout (m :: q))
    rw [hq, readFile_makedirs]
theorem readFile_downloadEntries (es : REntries) :
    ∀ (rpath lpath : FsPath) (fs fs' : LocalFS) (p : FsPath),
      downloadEntries es rpath lpath fs = Except.ok fs' →
      (∀ m q, m ∈ es.namesOf → p ≠ lpath ++ m :: q) →
      fs'.readFile p = fs.readFile p := by
  cases es with
  | nil =>
    intro rpath lpath fs fs' p h _
    cases h
    rfl
  | cons name t rest =>
    intro rpath lpath fs fs' p h hout
    cases t with
    | dir es2 =>
      simp only [downloadEntries, S_ISDIR_mode, RTree.isDirT, if_true] at h
      cases h1 : downloadDirNode (RTree.dir es2) (rpath ++ [name]) (lpath ++ [name]) fs with
      | error e => rw [h1] at h; cases h
      | ok fs1 =>
        rw [h1] at h
        have hrest := readFile_downloadEntries rest rpath lpath fs1 fs' p h
          (fun m q hm => hout m q (List.mem_cons_of_mem _ hm))
        have hdir := readFile_downloadDirNode (RTree.dir es2) (rpath ++ [name])
          (lpath ++ [name]) fs fs1 p h1
          (fun q => by
            rw [List.append_assoc, List.singleton_append]
            exact hout name q (List.mem_cons_self _ _))
        rw [hrest, hdir]
    | file c =>
      simp only [downloadEntries, S_ISDIR_mode, RTree.isDirT, Bool.false_eq_true,
        if_false, downloadFileNode] at h
      have hrest := readFile_downloadEntries rest rpath lpath
        ((fs.makedirs (lpath ++ [name]).dropLast).writeFile (lpath ++ [name]) c) fs' p h
        (fun m q hm => hout m q (List.mem_cons_of_mem _ hm))
      rw [hrest, readFile_writeFile_ne, readFile_makedirs]
      have := hout name [] (List.mem_cons_self _ _)
      simpa using this
end

mutual
theorem hasDir_downloadDirNode (t : RTree) :
    ∀ (rpath lpath : FsPath) (fs fs' : LocalFS) (p : FsPath),
      downloadDirNode t rpath lpath fs = Except.ok fs' →
      fs.hasDir p = true → fs'.hasDir p = true := by
  cases t with
  | file c =>
    intro rpath lpath fs fs' p h _
    simp [downloadDirNode] at h
  | dir es =>
    intro rpath lpath fs fs' p h hp
    simp only [downloadDirNode] at h
    exact hasDir_downloadEntries es rpath lpath (fs.makedirs lpath) fs' p h
      (hasDir_makedirs_mono fs lpath p hp)
theorem hasDir_downloadEntries (es : REntries) :
    ∀ (rpath lpath : FsPath) (fs fs' : LocalFS) (p : FsPath),
      downloadEntries es rpath lpath fs = Except.ok fs' →
      fs.hasDir p = true → fs'.hasDir p = true := by
  cases es with
  | nil =>
    intro rpath lpath fs fs' p h hp
    cases h
    exact hp
  | cons name t rest =>
    intro rpath lpath fs fs' p h hp
    cases t with
    | dir es2 =>
      simp only [downloadEntries, S_ISDIR_mode, RTree.isDirT, if_true] at h
      cases h1 : downloadDirNode (RTree.dir es2) (rpath ++ [name]) (lpath ++ [name]) fs with
      | error e => rw [h1] at h; cases h
      | ok fs1 =>
        rw [h1] at h
        exact hasDir_downloadEntries rest rpath lpath fs1 fs' p h
          (hasDir_downloadDirNode (RTree.dir es2) (rpath ++ [name]) (lpath ++ [name])
            fs fs1 p h1 hp)
    | file c =>
      simp only [downloadEntries, S_ISDIR_mode, RTree.isDirT, Bool.false_eq_true,
        if_false, downloadFileNode] at h
      refine hasDir_downloadEntries rest rpath lpath _ fs' p h ?_
      rw [hasDir_writeFile]
      exact hasDir_makedirs_mono fs (lpath ++ [name]).dropLast p hp
end

mutual
theorem treeComplete_mono (t : RTree) :
    ∀ (root : FsPath) (fs fs' : LocalFS),
      treeComplete t root fs = true →
      (∀ p q, p = root ++ q → fs'.readFile p = fs.readFile p) →
      (∀ p, fs.hasDir p = true → fs'.hasDir p = true) →
      treeComplete t root fs' = true := by
  cases t with
  | file c =>
    intro root fs fs' h hr _
    simp only [treeComplete] at h ⊢
    rw [hr root [] (by simp)]
    exact h
  | dir es =>
    intro root fs fs' h hr hd
    simp only [treeComplete, Bool.and_eq_true] at h ⊢
    exact ⟨hd root h.1, entriesComplete_mono es root fs fs' h.2 hr hd⟩
theorem entriesComplete_mono (es : REntries) :
    ∀ (root : FsPath) (fs fs' : LocalFS),
      entriesComplete es root fs = true →
      (∀ p q, p = root ++ q → fs'.readFile p = fs.readFile p) →
      (∀ p, fs.hasDir p = true → fs'.hasDir p = true) →
      entriesComplete es root fs' = true := by
  cases es with
  | nil =>
    intro root fs fs' _ _ _
    rfl
  | cons n t rest =>
    intro root fs fs' h hr hd
    simp only [entriesComplete, Bool.and_eq_true] at h ⊢
    refine ⟨treeComplete_mono t (root ++ [n]) fs fs' h.1 ?_ hd,
            entriesComplete_mono rest root fs fs' h.2 hr hd⟩
    intro p q hp
    exact hr p ([n] ++ q) (by rw [hp, List.append_assoc])
end

mutual
theorem complete_downloadDirNode (t : RTree) :
    ∀ (rpath lpath : FsPath) (fs fs' : LocalFS),
      downloadDirNode t rpath lpath fs = Except.ok fs' →
      t.wfTree = true → lpath ≠ [] →
      treeComplete t lpath fs' = true := by
  cases t with
  | file c =>
    intro rpath lpath fs fs' h _ _
    simp [downloadDirNode] at h
  | dir es =>
    intro rpath lpath fs fs' h hwf hl
    simp only [downloadDirNode] at h
    simp only [RTree.wfTree, Bool.and_eq_true] at hwf
    simp only [treeComplete, Bool.and_eq_true]
    refine ⟨?_, complete_downloadEntries es rpath lpath (fs.makedirs lpath) fs' h hwf.1 hwf.2⟩
    exact hasDir_downloadEntries es rpath lpath (fs.makedirs lpath) fs' lpath h
      (hasDir_makedirs_self fs lpath hl)
theorem complete_downloadEntries (es : REntries) :
    ∀ (rpath lpath : FsPath) (fs fs' : LocalFS),
      downloadEntries es rpath lpath fs = Except.ok fs' →
      nodupNames es.namesOf = true → es.wfEntries = true →
      entriesComplete es lpath fs' = true := by
  cases es with
  | nil =>
    intro rpath lpath fs fs' _ _ _
    rfl
  | cons name t rest =>
    intro rpath lpath fs fs' h hnd hwf
    have hnd' := nodupNames_cons name rest.namesOf
      (by simpa [REntries.namesOf] using hnd)
    simp only [REntries.wfEntries, Bool.and_eq_true] at hwf
    simp only [entriesComplete, Bool.and_eq_true]
    cases t with
    | dir es2 =>
      simp only [downloadEntries, S_ISDIR_mode, RTree.isDirT, if_true] at h
      cases h1 : downloadDirNode (RTree.dir es2) (rpath ++ [name]) (lpath ++ [name]) fs with
      | error e => rw [h1] at h; cases h
      | ok fs1 =>
        rw [h1] at h
        have hsub : treeComplete (RTree.dir es2) (lpath ++ [name]) fs1 = true :=
          complete_downloadDirNode (RTree.dir es2) (rpath ++ [name]) (lpath ++ [name])
            fs fs1 h1 hwf.1 (by simp)
        constructor
        · refine treeComplete_mono (RTree.dir es2) (lpath ++ [name]) fs1 fs' hsub ?_ ?_
          · intro p q hp
            refine readFile_downloadEntries rest rpath lpath fs1 fs' p h ?_
            intro m r hm hpm
            rw [hp, List.append_assoc, List.singleton_append] at hpm
            have hc := List.cons_eq_cons.mp (List.append_cancel_left hpm)
            rw [hc.1] at hnd'
            exact hnd'.1 hm
          · intro p hp
            exact hasDir_downloadEntries rest rpath lpath fs1 fs' p h hp
        · exact complete_downloadEntries rest rpath lpath fs1 fs' h hnd'.2 hwf.2
    | file c =>
      simp only [downloadEntries, S_ISDIR_mode, RTree.isDirT, Bool.false_eq_true,
        if_false, downloadFileNode] at h
      constructor
      · simp only [treeComplete]
        have heq : fs'.readFile (lpath ++ [name]) = some c := by
          rw [readFile_downloadEntries rest rpath lpath
              ((fs.makedirs (lpath ++ [name]).dropLast).writeFile (lpath ++ [name]) c)
              fs' (lpath ++ [name]) h ?_]
          · exact readFile_writeFile_self _ _ _
          · intro m r hm hpm
            have hc := List.cons_eq_cons.mp (List.append_cancel_left hpm)
            rw [hc.1] at hnd'
            exact hnd'.1 hm
        simp [heq]
      · exact complete_downloadEntries rest rpath lpath
          ((fs.makedirs (lpath ++ [name]).dropLast).writeFile (lpath ++ [name]) c)
          fs' h hnd'.2 hwf.2
end

/-- C9: `Sftp.download_dir` on an open sub-session, given a well-formed
remote directory tree, is idempotent with respect to the local target:
invoked twice with the same remote directory and the same local target
both invocations succeed (pre-existing local directories are not an
error, `os.makedirs` runs with `exist_ok=True`), and after each
invocation the local directory tree completely mirrors the remote one. -/
theorem c9_download_dir_idempotent (s : SftpSt) (server : ServerData)
    (hdl : SftpHandle) (t : RTree) (rpath lpath : FsPath) (fs : LocalFS)
    (hcl : s.client = some hdl) (hdir : t.isDirT = true)
    (hwf : t.wfTree = true) (hl : lpath ≠ []) :
    ∃ fs1 fs2,
      Sftp.download_dir s server t rpath lpath fs = Except.ok fs1 ∧
      Sftp.download_dir s server t rpath lpath fs1 = Except.ok fs2 ∧
      treeComplete t lpath fs1 = true ∧
      treeComplete t lpath fs2 = true := by
  obtain ⟨fs1, h1⟩ := downloadDirNode_dir_ok t rpath lpath fs hdir
  obtain ⟨fs2, h2⟩ := downloadDirNode_dir_ok t rpath lpath fs1 hdir
  refine ⟨fs1, fs2, ?_, ?_, ?_, ?_⟩
  · simp [Sftp.download_dir, hcl, h1]
  · simp [Sftp.download_dir, hcl, h2]
  · exact complete_downloadDirNode t rpath lpath fs fs1 h1 hwf hl
  · exact complete_downloadDirNode t rpath lpath fs1 fs2 h2 hwf hl

/-- Witness for C9: a two-level remote tree (a file `a` and a
subdirectory `sub` holding a file `b`) downloaded twice into an empty
local filesystem. -/
theorem c9_download_dir_idempotent_witness :
    ∃ fs1 fs2,
      Sftp.download_dir
          { conn := { connected := true }, client := some { closed := false } }
          { ip := "10.0.0.5", username := "root" }
          (RTree.dir (.cons "a" (RTree.file "x")
            (.cons "sub" (RTree.dir (.cons "b" (RTree.file "y") .nil)) .nil)))
          ["r"] ["l"] { dirs := [], files := [] } = Except.ok fs1 ∧
      Sftp.download_dir
          { conn := { connected := true }, client := some { closed := false } }
          { ip := "10.0.0.5", username := "root" }
          (RTree.dir (.cons "a" (RTree.file "x")
            (.cons "sub" (RTree.dir (.cons "b" (RTree.file "y") .nil)) .nil)))
          ["r"] ["l"] fs1 = Except.ok fs2 ∧
      treeComplete
          (RTree.dir (.cons "a" (RTree.file "x")
            (.cons "sub" (RTree.dir (.cons "b" (RTree.file "y") .nil)) .nil)))
          ["l"] fs1 = true ∧
      treeComplete
          (RTree.dir (.cons "a" (RTree.file "x")
            (.cons "sub" (RTree.dir (.cons "b" (RTree.file "y") .nil)) .nil)))
          ["l"] fs2 = true :=
  c9_download_dir_idempotent
    { conn := { connected := true }, client := some { closed := false } }
    { ip := "10.0.0.5", username := "root" } { closed := false }
    (RTree.dir (.cons "a" (RTree.file "x")
      (.cons "sub" (RTree.dir (.cons "b" (RTree.file "y") .nil)) .nil)))
    ["r"] ["l"] { dirs := [], files := [] } rfl rfl (by decide) (by decide)

end SshWrapper
